import Mathlib

/-!
Verification of the bridge-controller core of the macOniewAgent repository
(`browser_use/bridge_controller.py` and its caller
`browser_use/controller/enhanced_actions.py`).

The Python code is shallowly embedded: dictionaries holding JSON payloads
become Lean structures whose fields are `Option`-valued (a `none` field is an
absent key), Python `dict.get(k, d)` becomes `Option.getD`, the Python `x or d`
idiom (which also replaces falsy values such as `0`, `""` and `None`) becomes
the explicit helpers `pyOrInt` / `pyOrStr`, and the mutable
`pending_commands` dictionary of the command/response correlator becomes an
association list transformed by a deterministic step function over delivery,
timeout and resumption events.  Exceptions become `Except` values.
-/

namespace Bridge

/-! ## Python dictionary primitives

`pyGet`, `pySet` and `pyDel` model lookup, assignment and deletion on a
Python `dict` represented as an association list in insertion order:
assignment overwrites in place, deletion removes the key. -/

def pyGet {K V : Type} [DecidableEq K] (m : List (K × V)) (k : K) : Option V :=
  match m with
  | [] => none
  | (k', v) :: rest => if k' = k then some v else pyGet rest k

def pySet {K V : Type} [DecidableEq K] (m : List (K × V)) (k : K) (v : V) :
    List (K × V) :=
  match m with
  | [] => [(k, v)]
  | (k', v') :: rest =>
      if k' = k then (k, v) :: rest else (k', v') :: pySet rest k v

def pyDel {K V : Type} [DecidableEq K] (m : List (K × V)) (k : K) :
    List (K × V) :=
  m.filter (fun p => p.1 ≠ k)

theorem pyGet_pySet {K V : Type} [DecidableEq K] (m : List (K × V)) (k : K) (v : V) :
    pyGet (pySet m k v) k = some v := by
  induction m with
  | nil => simp [pySet, pyGet]
  | cons p rest ih =>
      by_cases h : p.1 = k
      · simp [pySet, pyGet, h]
      · simp [pySet, pyGet, h, ih]

theorem pyGet_pyDel {K V : Type} [DecidableEq K] (m : List (K × V)) (k : K) :
    pyGet (pyDel m k) k = none := by
  induction m with
  | nil => simp [pyDel, pyGet]
  | cons p rest ih =>
      by_cases h : p.1 = k
      · simpa [pyDel, pyGet, h] using ih
      · simpa [pyDel, pyGet, h] using ih

/-! ## Python truthiness helpers -/

/-- Truthiness of a possibly-absent boolean field, as in
`result.get('success', False)` or `if dom_result.get('success'):`. -/
def pyBool (x : Option Bool) : Bool := x.getD false

/-- The Python idiom `x or d` for a possibly-absent integer `x`: both a
missing value and a present `0` (falsy) are replaced by the default. -/
def pyOrInt (x : Option Int) (d : Int) : Int :=
  match x with
  | some v => if v = 0 then d else v
  | none => d

/-- The Python idiom `x or d` for a possibly-absent string `x`: both a
missing value and a present `""` (falsy) are replaced by the default. -/
def pyOrStr (x : Option String) (d : String) : String :=
  match x with
  | some s => if s = "" then d else s
  | none => d

/-- Truthiness of an optional string, as in `if not self.current_url`. -/
def pyTruthyStr (x : Option String) : Bool :=
  match x with
  | some s => !(s == "")
  | none => false

/-! ## Error taxonomy

The Python code raises bare `Exception` objects; the spec names them.  Each
constructor records one distinct raise site of `bridge_controller.py`. -/

inductive BridgeErr where
  /-- `send_command` line 101: `raise Exception("Bridge extension not connected")`. -/
  | NotConnectedError : BridgeErr
  /-- `send_command` line 133: `raise Exception("Command timeout")` after the
  30-second `asyncio.wait_for` elapses. -/
  | CommandTimeoutError : BridgeErr
  /-- `get_browser_state_with_recovery` line 282: bridge not connected. -/
  | SessionNotConnectedError : BridgeErr
  /-- `_click_element_node` line 662: `Click failed for element {index}: {reason}`;
  the payload carries the element's highlight index and the reported reason. -/
  | ClickFailedError (index : Int) (reason : String) : BridgeErr
  /-- `_click_element_node` line 670: `Element missing highlight_index: {node}`. -/
  | MissingHighlightIndexError : BridgeErr
deriving DecidableEq

/-! ## Command results

A generic command response payload (`result` of a `response` frame), with the
fields the embedded code inspects: `success`, the narrower `clicked` / `typed`
sub-flags, and `error`. -/

structure CmdResult where
  success : Option Bool := none
  clicked : Option Bool := none
  typed : Option Bool := none
  error : Option String := none
deriving DecidableEq

/-! ## Command/response correlator (`BridgeController`)

`send_command` (lines 97-138) registers a waiter
`self.pending_commands[cmd_id] = {'event': asyncio.Event(), 'result': None}`,
sends the frame, and suspends on `event.wait()` with a 30-second timeout.
`_handle_message` (lines 82-95) resolves a `response` frame by setting the
waiter's `result` slot and its event — it does *not* remove the waiter; the
id is deleted by `send_command` itself, either after resuming or in its
timeout handler.

The embedding is a deterministic step function over the pending-waiter map.
Events: `deliver` (a `response` frame with a given id reaches
`_handle_message`), `timeout` (the 30-second `asyncio.wait_for` of that id's
`send_command` fires — possible only while the event is unset), and `resume`
(the suspended `send_command` wakes after its event was set, reads the
result and deletes the waiter).  Each step also emits the observation the
caller of `send_command` sees, if any. -/

/-- Fixed `send_command` timeout: `asyncio.wait_for(event.wait(), timeout=30.0)`. -/
def commandTimeoutSeconds : Nat := 30

/-- One entry of `pending_commands`: `{'event': Event, 'result': ...}`. -/
structure Waiter where
  eventSet : Bool
  result : Option CmdResult
deriving DecidableEq

/-- The correlator's mutable state: the `pending_commands` dictionary. -/
structure CorrState where
  pending : List (String × Waiter)
deriving DecidableEq

inductive CorrEvent where
  /-- `send_command` registers a fresh waiter under a new id (line 115). -/
  | register (id : String) : CorrEvent
  /-- `_handle_message` handles `{'type':'response','id':id,'result':r}`
  (lines 88-93). -/
  | deliver (id : String) (r : Option CmdResult) : CorrEvent
  /-- The 30-second timeout of the `send_command` waiting on `id` fires
  (lines 130-133); only possible while the event is still unset. -/
  | timeout (id : String) : CorrEvent
  /-- The `send_command` waiting on `id` resumes after its event was set
  (lines 122-128). -/
  | resume (id : String) : CorrEvent
deriving DecidableEq

/-- What the caller suspended in `send_command` observes at a step. -/
inductive CorrObs where
  /-- `send_command` raises (the timeout branch re-raises after cleanup). -/
  | raised (id : String) (e : BridgeErr) : CorrObs
  /-- `send_command` returns `self.pending_commands[cmd_id]['result']`. -/
  | returned (id : String) (r : Option CmdResult) : CorrObs
deriving DecidableEq

/-- One step of the correlator.  `deliver` follows `_handle_message`: if the
id is in `pending_commands` it sets the result slot and the event in place,
otherwise the frame is dropped with no state change.  `timeout` follows the
`asyncio.TimeoutError` branch of `send_command`: delete the waiter, raise
`CommandTimeoutError`.  `resume` follows the success path: read the result,
delete the waiter, return. -/
def corrStep (s : CorrState) : CorrEvent → CorrState × Option CorrObs
  | .register id => (⟨pySet s.pending id ⟨false, none⟩⟩, none)
  | .deliver id r =>
      match pyGet s.pending id with
      | some _ => (⟨pySet s.pending id ⟨true, r⟩⟩, none)
      | none => (s, none)
  | .timeout id =>
      match pyGet s.pending id with
      | some w =>
          if w.eventSet then (s, none)
          else (⟨pyDel s.pending id⟩, some (.raised id .CommandTimeoutError))
      | none => (s, none)
  | .resume id =>
      match pyGet s.pending id with
      | some w =>
          if w.eventSet then (⟨pyDel s.pending id⟩, some (.returned id w.result))
          else (s, none)
      | none => (s, none)

/-! ## Raw `get_dom` payload

Mirrors the JSON shape the extension sends inside
`{'success': ..., 'result': {...}, 'error': ...}`.  Every field the Python
code reads with `.get` is `Option`-valued. -/

structure Coordinates where
  x : Int
  y : Int
deriving DecidableEq

/-- A raw coordinate quad as sent by the extension
(`viewportCoordinates` / `pageCoordinates`). -/
structure RawQuad where
  top_left : Coordinates
  top_right : Coordinates
  bottom_left : Coordinates
  bottom_right : Coordinates
  center : Coordinates
  width : Int
  height : Int
deriving DecidableEq

structure RawElement where
  index : Option Int := none
  tagName : Option String := none
  xpath : Option String := none
  attributes : Option (List (String × String)) := none
  isVisible : Option Bool := none
  isInteractive : Option Bool := none
  isTopElement : Option Bool := none
  isInViewport : Option Bool := none
  shadowRoot : Option Bool := none
  viewportCoordinates : Option RawQuad := none
  pageCoordinates : Option RawQuad := none
deriving DecidableEq

structure RawViewport where
  width : Option Int := none
  height : Option Int := none
  scrollX : Option Int := none
  scrollY : Option Int := none
deriving DecidableEq

structure RawPage where
  width : Option Int := none
  height : Option Int := none
deriving DecidableEq

structure RawPixels where
  above : Option Int := none
  below : Option Int := none
  left : Option Int := none
  right : Option Int := none
deriving DecidableEq

structure RawTab where
  id : Option Int := none
  url : Option String := none
  title : Option String := none
deriving DecidableEq

structure RawDomData where
  elements : Option (List RawElement) := none
  viewport : Option RawViewport := none
  page : Option RawPage := none
  pixels : Option RawPixels := none
  url : Option String := none
  title : Option String := none
  tabs : Option (List RawTab) := none
deriving DecidableEq

/-- The whole `get_dom` command response: `{'success', 'result', 'error'}`. -/
structure DomCmdResult where
  success : Option Bool := none
  result : Option RawDomData := none
  error : Option String := none
deriving DecidableEq

/-! ## Reconstructed page model (`browser_use` view types) -/

structure PageInfo where
  viewport_width : Int
  viewport_height : Int
  page_width : Int
  page_height : Int
  scroll_x : Int
  scroll_y : Int
  pixels_above : Int
  pixels_below : Int
  pixels_left : Int
  pixels_right : Int
deriving DecidableEq

structure ViewportInfo where
  scrollX : Int
  scrollY : Int
  width : Int
  height : Int
deriving DecidableEq

structure CoordinateSet where
  top_left : Coordinates
  top_right : Coordinates
  bottom_left : Coordinates
  bottom_right : Coordinates
  center : Coordinates
  width : Int
  height : Int
deriving DecidableEq

/-- `DOMElementNode`.  The mutable `parent` back-pointer of the Python class
(set in a second phase after construction) is left out of this functional
model: it would make the value cyclic and no embedded claim inspects it. -/
inductive DOMElementNode where
  | mk
      (tag_name : String)
      (xpath : String)
      (attributes : List (String × String))
      (children : List DOMElementNode)
      (is_visible : Bool)
      (is_interactive : Bool)
      (is_top_element : Bool)
      (is_in_viewport : Bool)
      (shadow_root : Bool)
      (highlight_index : Option Int)
      (viewport_coordinates : Option CoordinateSet)
      (page_coordinates : Option CoordinateSet)
      (viewport_info : Option ViewportInfo) : DOMElementNode

def DOMElementNode.tagName : DOMElementNode → String
  | .mk t _ _ _ _ _ _ _ _ _ _ _ _ => t

def DOMElementNode.xpathOf : DOMElementNode → String
  | .mk _ x _ _ _ _ _ _ _ _ _ _ _ => x

def DOMElementNode.childrenOf : DOMElementNode → List DOMElementNode
  | .mk _ _ _ c _ _ _ _ _ _ _ _ _ => c

def DOMElementNode.isVisible : DOMElementNode → Bool
  | .mk _ _ _ _ v _ _ _ _ _ _ _ _ => v

def DOMElementNode.highlightIndex : DOMElementNode → Option Int
  | .mk _ _ _ _ _ _ _ _ _ hi _ _ _ => hi

/-- The selector map: a Python dict keyed by the element's reported
highlight index, in insertion order. -/
def SelectorMap : Type := List (Int × DOMElementNode)

structure TabInfo where
  page_id : Int
  url : String
  title : String
deriving DecidableEq

structure BrowserStateSummary where
  element_tree : Option DOMElementNode
  selector_map : SelectorMap
  url : String
  title : String
  tabs : List TabInfo
  page_info : PageInfo
  pixels_above : Int
  pixels_below : Int

/-! ## State reconstructor (`BridgeSession.get_browser_state_with_recovery`)

Lines 276-541 of `bridge_controller.py`, split into the helper builders the
loop body uses and the top-level function.  The outcomes of the awaited
bridge commands (`navigate`, `get_dom`, and the error-path `evaluate`) are
passed in as pure inputs; an `Except.error` input stands for the awaited
call raising. -/

/-- Lines 386-392: per-element `ViewportInfo(scrollX=viewport.get('scrollX',0),
..., width=viewport.get('width', 1920), height=viewport.get('height', 1080))`.
Note these are plain `.get` defaults: unlike lines 311-312, a present `0`
width is kept. -/
def mkViewportInfo (viewport : RawViewport) : ViewportInfo :=
  { scrollX := viewport.scrollX.getD 0
    scrollY := viewport.scrollY.getD 0
    width := viewport.width.getD 1920
    height := viewport.height.getD 1080 }

/-- Lines 363-371 / 376-384: a `CoordinateSet` copied field by field from the
raw quad. -/
def mkCoordinateSet (q : RawQuad) : CoordinateSet :=
  { top_left := q.top_left
    top_right := q.top_right
    bottom_left := q.bottom_left
    bottom_right := q.bottom_right
    center := q.center
    width := q.width
    height := q.height }

/-- Lines 351-409: one `DOMElementNode` built from a raw element.  Quads are
built only when the raw coordinate object is present (`if
element.get('viewportCoordinates'):`); `children` is always `[]`;
`highlight_index` is `element.get('index')` with no default. -/
def mkDomElement (viewport : RawViewport) (element : RawElement) :
    DOMElementNode :=
  .mk
    (element.tagName.getD "div")
    (element.xpath.getD "")
    (element.attributes.getD [])
    []
    (element.isVisible.getD true)
    (element.isInteractive.getD false)
    (element.isTopElement.getD false)
    (element.isInViewport.getD false)
    (element.shadowRoot.getD false)
    element.index
    (element.viewportCoordinates.map mkCoordinateSet)
    (element.pageCoordinates.map mkCoordinateSet)
    (some (mkViewportInfo viewport))

/-- Lines 348-411: the per-element loop
`selector_map[element.get('index', 0)] = dom_element` — dict assignment in
iteration order, keyed by the reported index with default `0`. -/
def buildSelectorMap (viewport : RawViewport) (elements : List RawElement) :
    SelectorMap :=
  elements.foldl
    (fun sm element => pySet sm (element.index.getD 0) (mkDomElement viewport element))
    []

/-- Lines 309-330: the success-path `PageInfo`.  Viewport width/height use the
falsy-replacing `or` idiom with defaults 1920/1080; page width/height fall
back (again via `or`) to the already-defaulted viewport dimensions; scroll
and pixel-overflow fields use plain `.get` defaults of `0`. -/
def mkPageInfo (viewport : RawViewport) (page : RawPage) (pixels : RawPixels) :
    PageInfo :=
  let actual_viewport_width := pyOrInt viewport.width 1920
  let actual_viewport_height := pyOrInt viewport.height 1080
  let actual_page_width := pyOrInt page.width actual_viewport_width
  let actual_page_height := pyOrInt page.height actual_viewport_height
  { viewport_width := actual_viewport_width
    viewport_height := actual_viewport_height
    page_width := actual_page_width
    page_height := actual_page_height
    scroll_x := viewport.scrollX.getD 0
    scroll_y := viewport.scrollY.getD 0
    pixels_above := pixels.above.getD 0
    pixels_below := pixels.below.getD 0
    pixels_left := pixels.left.getD 0
    pixels_right := pixels.right.getD 0 }

/-- Lines 421-458: the depth-1 root element whose children are the selector
map's values in insertion order, with the viewport info of lines 425-430. -/
def mkRootElement (viewport : RawViewport) (children : List DOMElementNode) :
    DOMElementNode :=
  .mk "root" "" [] children true false true true false none none none
    (some { scrollX := viewport.scrollX.getD 0
            scrollY := viewport.scrollY.getD 0
            width := pyOrInt viewport.width 1920
            height := pyOrInt viewport.height 1080 })

/-- The payload of the error-path dimension `evaluate` (lines 480-498):
`{'success': ..., 'result': {'viewport': {...}, 'page': {...}}}`. -/
structure RawDims where
  viewport : Option RawPage := none
  page : Option RawPage := none
deriving DecidableEq

structure EvalDimsResult where
  success : Option Bool := none
  result : Option RawDims := none
deriving DecidableEq

/-- Lines 479-511: error-path dimensions.  If the `evaluate` call raised, or
reported no success/data, all four dimensions fall back to 1920/1080;
otherwise field-level `.get` defaults apply, page dimensions defaulting to
the (possibly defaulted) viewport ones. -/
def errorPathDims (dim_result : Except BridgeErr EvalDimsResult) :
    Int × Int × Int × Int :=
  match dim_result with
  | .error _ => (1920, 1080, 1920, 1080)
  | .ok d =>
      if pyBool d.success ∧ d.result.isSome then
        let dim_data := d.result.getD {}
        let error_viewport_width := (dim_data.viewport.getD {}).width.getD 1920
        let error_viewport_height := (dim_data.viewport.getD {}).height.getD 1080
        let error_page_width := (dim_data.page.getD {}).width.getD error_viewport_width
        let error_page_height := (dim_data.page.getD {}).height.getD error_viewport_height
        (error_viewport_width, error_viewport_height, error_page_width,
          error_page_height)
      else (1920, 1080, 1920, 1080)

/-- Lines 284-292: when there is no truthy current URL (or it is
`about:blank`), the session first navigates to Google and, on success,
records that as the current URL. -/
def navUpdatedUrl (current_url : Option String) (nav_result : CmdResult) :
    Option String :=
  if pyTruthyStr current_url = false ∨ current_url = some "about:blank" then
    if pyBool nav_result.success then some "https://www.google.com"
    else current_url
  else current_url

/-- Lines 297-469: the success branch of `get_browser_state_with_recovery`.
`cu` is the session's current URL after the optional initial navigation;
`dom_data` is `dom_result.get('result', {})`. -/
def successState (cu : Option String) (dom_data : RawDomData) :
    BrowserStateSummary :=
  let viewport := dom_data.viewport.getD {}
  let page := dom_data.page.getD {}
  let pixels := dom_data.pixels.getD {}
  let page_info := mkPageInfo viewport page pixels
  let current_url := dom_data.url.getD (pyOrStr cu "about:blank")
  let current_title := dom_data.title.getD ""
  let selector_map := buildSelectorMap viewport (dom_data.elements.getD [])
  let root_element := mkRootElement viewport (selector_map.map (·.2))
  { element_tree := some root_element
    selector_map := selector_map
    url := current_url
    title := current_title
    tabs := [⟨1, current_url, current_title⟩]
    page_info := page_info
    pixels_above := pixels.above.getD 0
    pixels_below := pixels.below.getD 0 }

/-- Lines 470-541: the degraded branch taken when `get_dom` reports failure.
Still a normal return: empty selector map, null root, error-marker title. -/
def degradedState (cu : Option String) (dom_result : DomCmdResult)
    (dim_result : Except BridgeErr EvalDimsResult) : BrowserStateSummary :=
  let error_msg := dom_result.error.getD "Unknown error"
  let error_url := pyOrStr cu "about:blank"
  let error_title := "Bridge Error: " ++ error_msg
  let dims := errorPathDims dim_result
  { element_tree := none
    selector_map := []
    url := error_url
    title := error_title
    tabs := [⟨1, error_url, error_title⟩]
    page_info :=
      { viewport_width := dims.1
        viewport_height := dims.2.1
        page_width := dims.2.2.1
        page_height := dims.2.2.2
        scroll_x := 0
        scroll_y := 0
        pixels_above := 0
        pixels_below := 0
        pixels_left := 0
        pixels_right := 0 }
    pixels_above := 0
    pixels_below := 0 }

/-- Lines 276-541: `get_browser_state_with_recovery`.  Inputs: the connection
flag, the session's tracked `current_url`, and the outcomes of the awaited
bridge calls (`navigate` to Google — consulted only when there is no truthy
current URL —, `get_dom`, and the error-path dimension `evaluate`, whose
`Except.error` stands for the awaited call raising; that exception is
swallowed by the bare `except` of lines 506-511). -/
def get_browser_state_with_recovery
    (connected : Bool)
    (current_url : Option String)
    (nav_result : CmdResult)
    (dom_result : DomCmdResult)
    (dim_result : Except BridgeErr EvalDimsResult) :
    Except BridgeErr BrowserStateSummary :=
  if connected = false then .error .SessionNotConnectedError
  else
    let cu := navUpdatedUrl current_url nav_result
    if pyBool dom_result.success then
      .ok (successState cu (dom_result.result.getD {}))
    else
      .ok (degradedState cu dom_result dim_result)

/-! ## Caller-facing action wrappers (`_click_element_node`, `_input_text_element_node`)

The outcome of each awaited `bridge` command is an input; `Except.error`
stands for the awaited call itself raising (timeout / not connected). -/

/-- Lines 648-670: `_click_element_node`.  Requires a non-null
`highlight_index`; a response is a success only when both `success` and
`clicked` are truthy, otherwise the dual-flag failure is promoted to a raised
error carrying the element index and the reported reason.  On success the
function returns `None` (no download path).  An exception from the awaited
click (or the raised failure itself) is re-raised by the `except` clause. -/
def click_element_node (element_node : DOMElementNode)
    (clickOutcome : Except BridgeErr CmdResult) :
    Except BridgeErr (Option String) :=
  match element_node.highlightIndex with
  | some hi =>
      match clickOutcome with
      | .error err => .error err
      | .ok result =>
          if pyBool result.success && pyBool result.clicked then .ok none
          else .error (.ClickFailedError hi (result.error.getD "unknown error"))
  | none => .error .MissingHighlightIndexError

/-- Lines 672-691: `_input_text_element_node`.  First clicks to focus; if the
focus click reports a truthy `success`, issues `type` and returns the
conjunction of the `success` and `typed` flags of the type response — a
`typed=false` reply is only logged, never raised.  Every reported-failure
path returns `False` normally. -/
def input_text_element_node (element_node : DOMElementNode)
    (focusOutcome : Except BridgeErr CmdResult)
    (typeOutcome : Except BridgeErr CmdResult) :
    Except BridgeErr Bool :=
  match element_node.highlightIndex with
  | some _ =>
      match focusOutcome with
      | .error err => .error err
      | .ok click_result =>
          if pyBool click_result.success then
            match typeOutcome with
            | .error err => .error err
            | .ok type_result =>
                .ok (pyBool type_result.success && pyBool type_result.typed)
          else .ok false
  | none => .ok false

/-! ## Tab proxy adapter (`BridgePageProxy`, `CurrentPageProxy`)

Lines 573-638.  Both proxy classes carry `id` and `url` attributes (a
`BridgePageProxy`'s id is `tab_info.get('id')`, possibly `None`; a
`CurrentPageProxy`'s id is the literal `1`), so for any pair of handles
`hasattr(other, 'id')` and `hasattr(other, 'url')` are both true. -/

structure BridgePageProxy where
  id : Option Int
  url : String
  title : String
  closed : Bool
deriving DecidableEq

structure CurrentPageProxy where
  url : String
  title : String
deriving DecidableEq

inductive TabHandle where
  | bridge (p : BridgePageProxy) : TabHandle
  | current (p : CurrentPageProxy) : TabHandle
deriving DecidableEq

/-- The `id` attribute a handle exposes; a `CurrentPageProxy` has `self.id = 1`. -/
def TabHandle.getId : TabHandle → Option Int
  | .bridge p => p.id
  | .current _ => some 1

/-- The `url` attribute a handle exposes. -/
def TabHandle.getUrl : TabHandle → String
  | .bridge p => p.url
  | .current p => p.url

/-- Lines 599-605 / 633-636: `__eq__`.  For a `BridgePageProxy` on the left,
`hasattr(other, 'id')` is true for every handle, so the comparison returns
`self.id == other.id` and the url branch is unreachable.  For a
`CurrentPageProxy` on the left, only the url check exists. -/
def tabEq : TabHandle → TabHandle → Bool
  | .bridge p, other => p.id == other.getId
  | .current p, other => p.url == other.getUrl

/-- Lines 586-592: `BridgePageProxy.close()`.  Issues `close_tab` and marks
the proxy closed only after the awaited send returned; an exception from the
send is caught and logged, leaving `_closed` untouched — `close()` itself
always returns normally. -/
def proxyClose (p : BridgePageProxy)
    (sendOutcome : Except BridgeErr CmdResult) : BridgePageProxy :=
  match sendOutcome with
  | .ok _ => { p with closed := true }
  | .error _ => p

/-- Lines 583-584: `is_closed()` reports the local `_closed` flag. -/
def isClosed (p : BridgePageProxy) : Bool := p.closed

/-! ## Shared helper lemmas -/

theorem pyOrInt_falsy (x : Option Int) (d : Int) (h : x = none ∨ x = some 0) :
    pyOrInt x d = d := by
  rcases h with h | h <;> simp [pyOrInt, h]

theorem pyOrInt_ne_zero (x : Option Int) (d : Int) (hd : d ≠ 0) :
    pyOrInt x d ≠ 0 := by
  cases x with
  | none => simpa [pyOrInt] using hd
  | some v =>
      by_cases hv : v = 0
      · simpa [pyOrInt, hv] using hd
      · simp [pyOrInt, hv]

theorem buildSelectorMap_append (viewport : RawViewport)
    (elems : List RawElement) (e : RawElement) :
    buildSelectorMap viewport (elems ++ [e]) =
      pySet (buildSelectorMap viewport elems) (e.index.getD 0)
        (mkDomElement viewport e) := by
  simp [buildSelectorMap, List.foldl_append]

/-- The element reconstructed from the last raw element reporting a given
index is the one the selector map holds at that key, whatever came before. -/
theorem pyGet_buildSelectorMap_last (viewport : RawViewport)
    (elems : List RawElement) (e : RawElement) :
    pyGet (buildSelectorMap viewport (elems ++ [e])) (e.index.getD 0) =
      some (mkDomElement viewport e) := by
  rw [buildSelectorMap_append]
  exact pyGet_pySet _ _ _

/-! ## Claims -/

/-- C2: a `send_command` call that receives no matching response within the
30-second window fails with `CommandTimeoutError`, the command's id is absent
from `pending_commands` immediately afterward, and a response bearing that id
delivered after the timeout is silently discarded with no state change. -/
theorem c2_timeout_cleanup (s : CorrState) (id : String) (w : Waiter)
    (r : Option CmdResult)
    (hw : pyGet s.pending id = some w) (hev : w.eventSet = false) :
    commandTimeoutSeconds = 30 ∧
    (corrStep s (.timeout id)).2 = some (.raised id .CommandTimeoutError) ∧
    pyGet (corrStep s (.timeout id)).1.pending id = none ∧
    corrStep (corrStep s (.timeout id)).1 (.deliver id r) =
      ((corrStep s (.timeout id)).1, none) := by
  have hstep :
      corrStep s (.timeout id) =
        (⟨pyDel s.pending id⟩, some (.raised id .CommandTimeoutError)) := by
    simp [corrStep, hw, hev]
  refine ⟨rfl, by rw [hstep], ?_, ?_⟩
  · rw [hstep]; exact pyGet_pyDel _ _
  · rw [hstep]; simp [corrStep, pyGet_pyDel]

theorem c2_timeout_cleanup_witness :
    commandTimeoutSeconds = 30 ∧
    (corrStep ⟨[("a", ⟨false, none⟩)]⟩ (.timeout "a")).2 =
      some (.raised "a" .CommandTimeoutError) ∧
    pyGet (corrStep ⟨[("a", ⟨false, none⟩)]⟩ (.timeout "a")).1.pending "a" = none ∧
    corrStep (corrStep ⟨[("a", ⟨false, none⟩)]⟩ (.timeout "a")).1 (.deliver "a" none) =
      ((corrStep ⟨[("a", ⟨false, none⟩)]⟩ (.timeout "a")).1, none) :=
  c2_timeout_cleanup ⟨[("a", ⟨false, none⟩)]⟩ "a" ⟨false, none⟩ none (by decide) rfl

/-- C3 counterexample: after a first response is handled, the waiter is still
*present* in `pending_commands` (removal happens only when the suspended
`send_command` resumes), so a second response with the same id handled before
that resumption is not a no-op: it overwrites the stored result. -/
theorem c3_counterexample :
    pyGet (corrStep ⟨[("a", ⟨false, none⟩)]⟩
        (.deliver "a" (some { success := some true }))).1.pending "a" =
      some ⟨true, some { success := some true }⟩ ∧
    (corrStep (corrStep ⟨[("a", ⟨false, none⟩)]⟩
        (.deliver "a" (some { success := some true }))).1
        (.deliver "a" (some { success := some false }))).1 ≠
      (corrStep ⟨[("a", ⟨false, none⟩)]⟩
        (.deliver "a" (some { success := some true }))).1 := by
  decide

/-- C3 (amended): delivering two responses with the same id resolves the
suspended `send_command` exactly once; a duplicate handled *before* the
sender resumes finds the waiter still registered and overwrites its result
slot (the already-set event is set again), while a duplicate handled *after*
the sender has resumed — which is when the id is removed — is silently
dropped with no state change. -/
theorem c3_single_resolution (s : CorrState) (id : String) (w : Waiter)
    (r1 r2 : Option CmdResult) (hw : pyGet s.pending id = some w) :
    pyGet (corrStep s (.deliver id r1)).1.pending id = some ⟨true, r1⟩ ∧
    pyGet (corrStep (corrStep s (.deliver id r1)).1 (.deliver id r2)).1.pending id =
      some ⟨true, r2⟩ ∧
    (corrStep (corrStep s (.deliver id r1)).1 (.resume id)).2 =
      some (.returned id r1) ∧
    pyGet (corrStep (corrStep s (.deliver id r1)).1 (.resume id)).1.pending id =
      none ∧
    corrStep (corrStep (corrStep s (.deliver id r1)).1 (.resume id)).1
        (.deliver id r2) =
      ((corrStep (corrStep s (.deliver id r1)).1 (.resume id)).1, none) := by
  have h1 : corrStep s (.deliver id r1) = (⟨pySet s.pending id ⟨true, r1⟩⟩, none) := by
    simp [corrStep, hw]
  have hg1 : pyGet (pySet s.pending id ⟨true, r1⟩) id = some ⟨true, r1⟩ :=
    pyGet_pySet _ _ _
  have h2 :
      corrStep (⟨pySet s.pending id ⟨true, r1⟩⟩ : CorrState) (.resume id) =
        (⟨pyDel (pySet s.pending id ⟨true, r1⟩) id⟩, some (.returned id r1)) := by
    simp [corrStep, hg1]
  refine ⟨?_, ?_, ?_, ?_, ?_⟩
  · rw [h1]; exact hg1
  · rw [h1]; simp [corrStep, hg1, pyGet_pySet]
  · rw [h1, h2]
  · rw [h1, h2]; exact pyGet_pyDel _ _
  · rw [h1, h2]; simp [corrStep, pyGet_pyDel]

theorem c3_single_resolution_witness :
    pyGet (corrStep ⟨[("b", ⟨false, none⟩)]⟩ (.deliver "b" none)).1.pending "b" =
      some ⟨true, none⟩ ∧
    pyGet (corrStep (corrStep ⟨[("b", ⟨false, none⟩)]⟩ (.deliver "b" none)).1
        (.deliver "b" (some {}))).1.pending "b" = some ⟨true, some {}⟩ ∧
    (corrStep (corrStep ⟨[("b", ⟨false, none⟩)]⟩ (.deliver "b" none)).1
        (.resume "b")).2 = some (.returned "b" none) ∧
    pyGet (corrStep (corrStep ⟨[("b", ⟨false, none⟩)]⟩ (.deliver "b" none)).1
        (.resume "b")).1.pending "b" = none ∧
    corrStep (corrStep (corrStep ⟨[("b", ⟨false, none⟩)]⟩ (.deliver "b" none)).1
        (.resume "b")).1 (.deliver "b" (some {})) =
      ((corrStep (corrStep ⟨[("b", ⟨false, none⟩)]⟩ (.deliver "b" none)).1
        (.resume "b")).1, none) :=
  c3_single_resolution ⟨[("b", ⟨false, none⟩)]⟩ "b" ⟨false, none⟩ none (some {})
    (by decide)

/-- C1: whenever the bridge is connected and `get_dom` returns a result with
`success=false`, `get_browser_state_with_recovery` returns normally — never
raises, whatever the error-path dimension `evaluate` does — with an empty
selector map, a null root element, a title that is the fixed marker
`"Bridge Error: "` followed by the reported error text, and the last known
URL (or `about:blank`). -/
theorem c1_degraded_model (current_url : Option String) (nav_result : CmdResult)
    (dom_result : DomCmdResult) (dim_result : Except BridgeErr EvalDimsResult)
    (hfail : dom_result.success = some false) :
    ∃ st,
      get_browser_state_with_recovery true current_url nav_result dom_result
          dim_result = .ok st ∧
      st.selector_map = [] ∧
      st.element_tree = none ∧
      st.title = "Bridge Error: " ++ dom_result.error.getD "Unknown error" ∧
      (∀ e, dom_result.error = some e → st.title = "Bridge Error: " ++ e) ∧
      st.url = pyOrStr (navUpdatedUrl current_url nav_result) "about:blank" := by
  refine ⟨degradedState (navUpdatedUrl current_url nav_result) dom_result
    dim_result, ?_, rfl, rfl, rfl, ?_, rfl⟩
  · simp [get_browser_state_with_recovery, hfail, pyBool]
  · intro e he
    show "Bridge Error: " ++ dom_result.error.getD "Unknown error" =
      "Bridge Error: " ++ e
    rw [he]
    rfl

theorem c1_degraded_model_witness :
    ∃ st,
      get_browser_state_with_recovery true (some "http://x") {}
          { success := some false, error := some "boom" }
          (.error .CommandTimeoutError) = .ok st ∧
      st.selector_map = [] ∧
      st.element_tree = none ∧
      st.title = "Bridge Error: " ++ (some "boom").getD "Unknown error" ∧
      (∀ e, (some "boom" : Option String) = some e →
        st.title = "Bridge Error: " ++ e) ∧
      st.url = pyOrStr (navUpdatedUrl (some "http://x") {}) "about:blank" :=
  c1_degraded_model (some "http://x") {}
    { success := some false, error := some "boom" }
    (.error .CommandTimeoutError) rfl

/-- C4 counterexample: two `BridgePageProxy` handles with different ids but
the same url are *not* equal — since every handle has an `id` attribute, the
`__eq__` of `BridgePageProxy` always takes the id branch and the url fallback
is unreachable. -/
theorem c4_counterexample :
    tabEq (.bridge ⟨some 1, "http://x", "", false⟩)
      (.bridge ⟨some 2, "http://x", "", false⟩) = false := by
  decide

/-- C4 (amended): equality depends on the class of the left operand.  A
`BridgePageProxy` equals another handle exactly when their ids match — urls
are never consulted, so a url match does *not* override an id mismatch
between two tab proxies, while a matching id with differing urls is still
equal; only a `CurrentPageProxy` (whose `__eq__` has no id check) compares
by url, so a url match yields equality there even across different ids. -/
theorem c4_equality_rule (p q : BridgePageProxy) (c : CurrentPageProxy)
    (h : TabHandle)
    (_hurl : p.url = q.url) (hid : p.id ≠ q.id) :
    tabEq (.bridge p) (.bridge q) = false ∧
    (tabEq (.bridge p) h = true ↔ p.id = h.getId) ∧
    tabEq (.current c) h = (c.url == h.getUrl) := by
  refine ⟨?_, ?_, rfl⟩
  · simp [tabEq, TabHandle.getId, hid]
  · simp [tabEq]

theorem c4_equality_rule_witness :
    tabEq (.bridge ⟨some 1, "http://x", "", false⟩)
      (.bridge ⟨some 2, "http://x", "", false⟩) = false ∧
    (tabEq (.bridge ⟨some 1, "http://x", "", false⟩)
        (.bridge ⟨some 1, "http://other", "", false⟩) = true ↔
      (some 1 : Option Int) =
        (TabHandle.bridge ⟨some 1, "http://other", "", false⟩).getId) ∧
    tabEq (.current ⟨"http://x", ""⟩)
        (.bridge ⟨some 1, "http://other", "", false⟩) =
      ("http://x" == (TabHandle.bridge ⟨some 1, "http://other", "", false⟩).getUrl) :=
  ⟨(c4_equality_rule ⟨some 1, "http://x", "", false⟩
      ⟨some 2, "http://x", "", false⟩ ⟨"http://x", ""⟩
      (.bridge ⟨some 1, "http://other", "", false⟩) rfl (by decide)).1,
   (c4_equality_rule ⟨some 1, "http://x", "", false⟩
      ⟨some 2, "http://x", "", false⟩ ⟨"http://x", ""⟩
      (.bridge ⟨some 1, "http://other", "", false⟩) rfl (by decide)).2.1,
   (c4_equality_rule ⟨some 1, "http://x", "", false⟩
      ⟨some 2, "http://x", "", false⟩ ⟨"http://x", ""⟩
      (.bridge ⟨some 1, "http://other", "", false⟩) rfl (by decide)).2.2⟩

/-- C5 counterexample: a `type` response with `success=true` but
`typed=false` (and a reported reason) is *not* promoted to a raised error —
`_input_text_element_node` merely logs it and returns `False` normally. -/
theorem c5_counterexample :
    input_text_element_node (mkDomElement {} { index := some 2 })
      (.ok { success := some true })
      (.ok { success := some true, typed := some false,
             error := some "target removed" }) = .ok false := rfl

/-- C5 (amended): the dual-flag contract is promoted to a raised error only
for `click`: a click response with `success=true` but `clicked=false` makes
`_click_element_node` raise an error carrying the element's highlight index
and the reported reason.  For `type`, a response with `success=true` but
`typed=false` is only logged: `_input_text_element_node` returns `False`
without raising. -/
theorem c5_dual_flag_click_raises_type_does_not (hi : Int)
    (viewport : RawViewport) (e : RawElement) (he : e.index = some hi)
    (r : CmdResult) (hs : r.success = some true) (hc : r.clicked = some false)
    (ht : r.typed = some false) (reason : String) (herr : r.error = some reason)
    (focus : CmdResult) (hf : focus.success = some true) :
    click_element_node (mkDomElement viewport e) (.ok r) =
      .error (.ClickFailedError hi reason) ∧
    input_text_element_node (mkDomElement viewport e) (.ok focus) (.ok r) =
      .ok false := by
  constructor
  · simp [click_element_node, mkDomElement, DOMElementNode.highlightIndex, he,
      pyBool, hs, hc, herr]
  · simp [input_text_element_node, mkDomElement, DOMElementNode.highlightIndex,
      he, pyBool, hf, hs, ht]

theorem c5_dual_flag_witness :
    click_element_node (mkDomElement {} { index := some 7 })
        (.ok { success := some true, clicked := some false,
               typed := some false, error := some "target removed" }) =
      .error (.ClickFailedError 7 "target removed") ∧
    input_text_element_node (mkDomElement {} { index := some 7 })
        (.ok { success := some true })
        (.ok { success := some true, clicked := some false,
               typed := some false, error := some "target removed" }) =
      .ok false :=
  c5_dual_flag_click_raises_type_does_not 7 {} { index := some 7 } rfl
    { success := some true, clicked := some false, typed := some false,
      error := some "target removed" } rfl rfl rfl "target removed" rfl
    { success := some true } rfl

/-- C6: on the concrete `get_dom` success payload
`{elements:[{index:3, tagName:"a", xpath:"/html/body/a", isVisible:true}],
viewport:{width:800, height:600}, page:{}, pixels:{}}`, the reconstructor
produces a selector map holding exactly key `3`, mapped to an element with
tag `"a"`, xpath `"/html/body/a"`, `visible=true`, and `PageInfo` with
viewport 800×600, page dimensions falling back to 800×600, and zero scroll
and pixel-overflow fields. -/
theorem c6_concrete_success :
    ∃ st,
      get_browser_state_with_recovery true (some "https://example.com") {}
        { success := some true,
          result := some
            { elements := some [{ index := some 3, tagName := some "a",
                                  xpath := some "/html/body/a",
                                  isVisible := some true }],
              viewport := some { width := some 800, height := some 600 },
              page := some {},
              pixels := some {} } }
        (.ok {}) = .ok st ∧
      st.selector_map =
        [(3, .mk "a" "/html/body/a" [] [] true false false false false
            (some 3) none none (some ⟨0, 0, 800, 600⟩))] ∧
      st.page_info = ⟨800, 600, 800, 600, 0, 0, 0, 0, 0, 0⟩ :=
  ⟨_, rfl, rfl, rfl⟩

/-- C7: a raw element with no `index` field is keyed in the selector map at
`0`, and whenever a later element reports the same effective index as an
earlier one, the later one silently overwrites the entry — last-write-wins,
with no deduplication and no error. -/
theorem c7_missing_index_last_write (viewport : RawViewport)
    (elems : List RawElement) (e : RawElement) :
    (e.index = none →
      pyGet (buildSelectorMap viewport (elems ++ [e])) 0 =
        some (mkDomElement viewport e)) ∧
    pyGet (buildSelectorMap viewport (elems ++ [e])) (e.index.getD 0) =
      some (mkDomElement viewport e) := by
  refine ⟨?_, pyGet_buildSelectorMap_last viewport elems e⟩
  intro h
  have := pyGet_buildSelectorMap_last viewport elems e
  rwa [h] at this

theorem c7_missing_index_last_write_witness :
    pyGet (buildSelectorMap {}
        ([{ index := some 0, tagName := some "b" }] ++ [{ tagName := some "i" }]))
        0 =
      some (mkDomElement {} { tagName := some "i" }) :=
  (c7_missing_index_last_write {} [{ index := some 0, tagName := some "b" }]
    { tagName := some "i" }).1 rfl

/-- C8 counterexample: when the awaited `close_tab` send raises (here: the
30-second timeout, i.e. no confirmation at all), the exception is swallowed,
`close()` returns normally, and `is_closed()` still reports `false`. -/
theorem c8_counterexample :
    isClosed (proxyClose ⟨some 5, "http://x", "t", false⟩
      (.error .CommandTimeoutError)) = false := rfl

/-- C8 (amended): after `close()` returns, `is_closed()` reports `true`
whenever the awaited `close_tab` send returned a response — the response's
content (its `success` flag) is never inspected; but when the send raises
(timeout or not connected), the exception is swallowed, `close()` still
returns normally, and the proxy is left unchanged, so `is_closed()` keeps
its previous value. -/
theorem c8_close_marks_closed :
    (∀ (p : BridgePageProxy) (r : CmdResult),
      isClosed (proxyClose p (.ok r)) = true) ∧
    (∀ (p : BridgePageProxy) (err : BridgeErr),
      proxyClose p (.error err) = p) :=
  ⟨fun _ _ => rfl, fun _ _ => rfl⟩

/-- C9: in the successful-reconstruction path, a viewport width or height
that is reported as `0` — not merely absent — is replaced by the 1920/1080
default, a page width or height of `0` likewise falls back to the (possibly
defaulted) viewport dimension, and no zero dimension ever survives into the
resulting `PageInfo`. -/
theorem c9_zero_dimensions_defaulted (current_url : Option String)
    (nav_result : CmdResult) (dom_result : DomCmdResult)
    (dim_result : Except BridgeErr EvalDimsResult)
    (hsucc : pyBool dom_result.success = true) :
    ∃ st,
      get_browser_state_with_recovery true current_url nav_result dom_result
          dim_result = .ok st ∧
      (((dom_result.result.getD {}).viewport.getD {}).width = none ∨
          ((dom_result.result.getD {}).viewport.getD {}).width = some 0 →
        st.page_info.viewport_width = 1920) ∧
      (((dom_result.result.getD {}).viewport.getD {}).height = none ∨
          ((dom_result.result.getD {}).viewport.getD {}).height = some 0 →
        st.page_info.viewport_height = 1080) ∧
      (((dom_result.result.getD {}).page.getD {}).width = none ∨
          ((dom_result.result.getD {}).page.getD {}).width = some 0 →
        st.page_info.page_width = st.page_info.viewport_width) ∧
      (((dom_result.result.getD {}).page.getD {}).height = none ∨
          ((dom_result.result.getD {}).page.getD {}).height = some 0 →
        st.page_info.page_height = st.page_info.viewport_height) ∧
      st.page_info.viewport_width ≠ 0 ∧
      st.page_info.viewport_height ≠ 0 ∧
      st.page_info.page_width ≠ 0 ∧
      st.page_info.page_height ≠ 0 := by
  refine ⟨successState (navUpdatedUrl current_url nav_result)
    (dom_result.result.getD {}), ?_, ?_, ?_, ?_, ?_, ?_, ?_, ?_, ?_⟩
  · simp [get_browser_state_with_recovery, hsucc]
  · intro h
    exact pyOrInt_falsy _ _ h
  · intro h
    exact pyOrInt_falsy _ _ h
  · intro h
    exact pyOrInt_falsy _ _ h
  · intro h
    exact pyOrInt_falsy _ _ h
  · exact pyOrInt_ne_zero _ _ (by decide)
  · exact pyOrInt_ne_zero _ _ (by decide)
  · exact pyOrInt_ne_zero _ _ (pyOrInt_ne_zero _ _ (by decide))
  · exact pyOrInt_ne_zero _ _ (pyOrInt_ne_zero _ _ (by decide))

theorem c9_zero_dimensions_defaulted_witness :
    ∃ st,
      get_browser_state_with_recovery true (some "http://x") {}
          { success := some true,
            result := some
              { viewport := some { width := some 0, height := some 0 },
                page := some { width := some 0 } } }
          (.ok {}) = .ok st ∧
      (some (0 : Int) = none ∨ some (0 : Int) = some 0 →
        st.page_info.viewport_width = 1920) ∧
      (some (0 : Int) = none ∨ some (0 : Int) = some 0 →
        st.page_info.viewport_height = 1080) ∧
      (some (0 : Int) = none ∨ some (0 : Int) = some 0 →
        st.page_info.page_width = st.page_info.viewport_width) ∧
      ((none : Option Int) = none ∨ (none : Option Int) = some 0 →
        st.page_info.page_height = st.page_info.viewport_height) ∧
      st.page_info.viewport_width ≠ 0 ∧
      st.page_info.viewport_height ≠ 0 ∧
      st.page_info.page_width ≠ 0 ∧
      st.page_info.page_height ≠ 0 :=
  c9_zero_dimensions_defaulted (some "http://x") {}
    { success := some true,
      result := some
        { viewport := some { width := some 0, height := some 0 },
          page := some { width := some 0 } } }
    (.ok {}) rfl

/-- C10: an element whose raw `index` field is missing is reconstructed with
`highlight_index = None` (not `0`) even though it is stored under selector
map key `0`; feeding that element to `_click_element_node` therefore always
raises the missing-highlight-index failure instead of issuing a click. -/
theorem c10_missing_index_click_raises (viewport : RawViewport)
    (elems : List RawElement) (e : RawElement) (h : e.index = none) :
    pyGet (buildSelectorMap viewport (elems ++ [e])) 0 =
      some (mkDomElement viewport e) ∧
    (mkDomElement viewport e).highlightIndex = none ∧
    ∀ clickOutcome,
      click_element_node (mkDomElement viewport e) clickOutcome =
        .error .MissingHighlightIndexError := by
  have hlast := pyGet_buildSelectorMap_last viewport elems e
  rw [h] at hlast
  refine ⟨hlast, ?_, ?_⟩
  · simp [mkDomElement, DOMElementNode.highlightIndex, h]
  · intro clickOutcome
    simp [click_element_node, mkDomElement, DOMElementNode.highlightIndex, h]

theorem c10_missing_index_click_raises_witness :
    pyGet (buildSelectorMap {} ([] ++ [{ tagName := some "span" }])) 0 =
      some (mkDomElement {} { tagName := some "span" }) ∧
    (mkDomElement {} { tagName := some "span" }).highlightIndex = none ∧
    ∀ clickOutcome,
      click_element_node (mkDomElement {} { tagName := some "span" })
          clickOutcome =
        .error .MissingHighlightIndexError :=
  c10_missing_index_click_raises {} [] { tagName := some "span" } rfl

end Bridge
